import Mathlib

set_option maxHeartbeats 1000000

/-!
Verification development for the cuDNN depthwise convolution layer
(`src/src/caffe/layers/cudnn_depthwise_layer.cpp`).

The layer keeps weights in two layouts: the compact "caffe" layout
(`caffe_weight_`, one filter per output channel) and the grouped "cudnn"
layout (`blobs_[0]`, one full per-group filter per output channel, mostly
zero), together with a validity mask (`mask_`).  `CaffeToCuDNN` and
`CuDNNToCaffe` convert between them.  `Reshape` plans algorithms and sizes
a shared scratch workspace, with a degrade path on allocation failure,
and the destructor releases all resources guarded by `handles_setup_`.

Buffers are modelled as total functions `Nat → α` (C arrays accessed via
non-negative `int` indices); the scalar type `α` stands for the `Dtype`
template parameter, and copies are modelled exactly (bit-for-bit).
-/

variable {α : Type}

/-- `#define CUDNN_STREAMS_DEPTHWISE 3` (cudnn_depthwise_layer.cpp, line 12). -/
def CUDNN_STREAMS_DEPTHWISE : Nat := 3

/-- The configuration values bound in the layer at conversion time:
`num_output_`, `channels_ / group_`, `multiplier_`, `kernel_dim_`.
All are non-negative C `int`s, modelled as `Nat`. -/
structure DwCfg where
  num_output : Nat
  channels_per_group : Nat
  multiplier : Nat
  kernel_dim : Nat
  deriving DecidableEq

/-- `int j = i / this->multiplier_ % channels_per_group;`
(cudnn_depthwise_layer.cpp, lines 308 and 329). -/
def jslot (cfg : DwCfg) (i : Nat) : Nat :=
  i / cfg.multiplier % cfg.channels_per_group

/-- `int idx_cudnn = (i * channels_per_group + j) * this->kernel_dim_ + k;`
(cudnn_depthwise_layer.cpp, lines 309 and 330). -/
def idx_cudnn (cfg : DwCfg) (i k : Nat) : Nat :=
  (i * cfg.channels_per_group + jslot cfg i) * cfg.kernel_dim + k

/-- `int idx_caffe = i * this->kernel_dim_ + k;`
(cudnn_depthwise_layer.cpp, lines 310 and 331). -/
def idx_caffe (cfg : DwCfg) (i k : Nat) : Nat :=
  i * cfg.kernel_dim + k

/-- `N = num_output_ * channels_per_group * kernel_dim_`, the size of the
grouped weight buffer zero-filled by `caffe_set` (lines 301-304). -/
def groupedSize (cfg : DwCfg) : Nat :=
  cfg.num_output * cfg.channels_per_group * cfg.kernel_dim

/-- `caffe_set(N, (Dtype)0., buf)`: zero the first `N` entries of a buffer. -/
def zeroFill [Zero α] (N : Nat) (b : Nat → α) : Nat → α :=
  fun n => if n < N then 0 else b n

/-- The inner loop `for (int k = 0; k < kernel_dim_; ++k)` of a conversion
pass: for each `k < K` write value `g i k` at index `f i k`. -/
def innerLoop (K : Nat) (i : Nat) (f : Nat → Nat → Nat) (g : Nat → Nat → α)
    (b : Nat → α) : Nat → α :=
  (List.range K).foldl (fun b k => Function.update b (f i k) (g i k)) b

/-- The double loop `for (int i = 0; i < num_output_; ++i) for (int k = 0;
k < kernel_dim_; ++k)` of a conversion pass: for each `i < O` and `k < K`
write value `g i k` at index `f i k`. -/
def copyLoop (O K : Nat) (f : Nat → Nat → Nat) (g : Nat → Nat → α)
    (b : Nat → α) : Nat → α :=
  (List.range O).foldl (fun b i => innerLoop K i f g b) b

/-- The mutable state the conversion and serialization routines touch:
`blobs_` (a list of data/diff buffer pairs, `blobs_[0]` being the grouped
cudnn-layout weight), `caffe_weight_` data and diff, and `mask_`. -/
structure LayerState (α : Type) where
  blobs : List ((Nat → α) × (Nat → α))
  caffe_data : Nat → α
  caffe_diff : Nat → α
  mask : Nat → α

/-- Grouped (cudnn-layout) weight data buffer, `blobs_[0]->cpu_data()`. -/
def grpData [Zero α] (st : LayerState α) : Nat → α :=
  (st.blobs.headD (fun _ => 0, fun _ => 0)).1

/-- Grouped (cudnn-layout) weight diff buffer, `blobs_[0]->cpu_diff()`. -/
def grpDiff [Zero α] (st : LayerState α) : Nat → α :=
  (st.blobs.headD (fun _ => 0, fun _ => 0)).2

/-- `CuDNNDepthwiseLayer::CaffeToCuDNN` (lines 292-317): if any blobs are
bound, zero-fill the grouped data, grouped diff and mask buffers over the
first `N` entries, then for every `(i, k)` copy the compact entry at
`idx_caffe` into the grouped entry at `idx_cudnn` (data and diff) and set
the mask there to `1`. -/
def CaffeToCuDNN [Zero α] [One α] (cfg : DwCfg) (st : LayerState α) :
    LayerState α :=
  match st.blobs with
  | [] => st
  | (cudnn_data, cudnn_diff) :: rest =>
    let N := groupedSize cfg
    let O := cfg.num_output
    let K := cfg.kernel_dim
    let cudnn_data1 := copyLoop O K (idx_cudnn cfg)
      (fun i k => st.caffe_data (idx_caffe cfg i k)) (zeroFill N cudnn_data)
    let cudnn_diff1 := copyLoop O K (idx_cudnn cfg)
      (fun i k => st.caffe_diff (idx_caffe cfg i k)) (zeroFill N cudnn_diff)
    let mask1 := copyLoop O K (idx_cudnn cfg)
      (fun _ _ => (1 : α)) (zeroFill N st.mask)
    { st with blobs := (cudnn_data1, cudnn_diff1) :: rest, mask := mask1 }

/-- `CuDNNDepthwiseLayer::CuDNNToCaffe` (lines 320-337): if any blobs are
bound, for every `(i, k)` copy the grouped entry at `idx_cudnn` back into
the compact entry at `idx_caffe` (data and diff).  The grouped buffers and
the mask are only read, never written. -/
def CuDNNToCaffe [Zero α] (cfg : DwCfg) (st : LayerState α) : LayerState α :=
  match st.blobs with
  | [] => st
  | (cudnn_data, cudnn_diff) :: _ =>
    let O := cfg.num_output
    let K := cfg.kernel_dim
    { st with
      caffe_data := copyLoop O K (idx_caffe cfg)
        (fun i k => cudnn_data (idx_cudnn cfg i k)) st.caffe_data
      caffe_diff := copyLoop O K (idx_caffe cfg)
        (fun i k => cudnn_diff (idx_cudnn cfg i k)) st.caffe_diff }

/-- A concrete layer state over `Int` used by the witnesses: one bound
weight blob plus distinct compact data/diff buffers and a scribbled mask. -/
def stEx : LayerState Int :=
  ⟨[(fun n => 1000 + n, fun n => 2000 + n)],
    fun n => 100 + n, fun n => 200 + n, fun _ => 7⟩

/-- The spec's concrete configuration: `outputChannels=8`, `channels=4`,
`groupCount=1` backendwise irrelevant here, `channelsPerGroup=4`,
`multiplier=2`, `kernelSize=3`. -/
def cfgEx : DwCfg := ⟨8, 4, 2, 3⟩

/-! ### Algorithm and workspace planner (`Reshape`, lines 111-240)

Per-input arrays are modelled as functions `Nat → Nat` (index = position of
the bound input), device pointers as `Nat` addresses with `0` for `NULL`
(so `reinterpret_cast<char*>(p) + off` is `p + off`), and `cudaMalloc` as
an oracle `Nat → Option Nat` returning the base address or `none` on
failure.  The cuDNN algorithm/size queries of lines 136-179 are external;
their results enter as inputs of a reshape call. -/

/-- `CUDNN_CONVOLUTION_FWD_ALGO_IMPLICIT_GEMM` (cuDNN enum value 0). -/
def CUDNN_CONVOLUTION_FWD_ALGO_IMPLICIT_GEMM : Nat := 0

/-- `CUDNN_CONVOLUTION_BWD_FILTER_ALGO_0` (cuDNN enum value 0). -/
def CUDNN_CONVOLUTION_BWD_FILTER_ALGO_0 : Nat := 0

/-- `CUDNN_CONVOLUTION_BWD_DATA_ALGO_0` (cuDNN enum value 0). -/
def CUDNN_CONVOLUTION_BWD_DATA_ALGO_0 : Nat := 0

/-- The planner state mutated by `Reshape`: the per-input size and
algorithm arrays, `workspaceSizeInBytes`, `workspaceData`, and the three
per-stream `workspace` pointers. -/
structure PlanState where
  workspace_fwd_sizes : Nat → Nat
  workspace_bwd_filter_sizes : Nat → Nat
  workspace_bwd_data_sizes : Nat → Nat
  fwd_algo : Nat → Nat
  bwd_filter_algo : Nat → Nat
  bwd_data_algo : Nat → Nat
  workspaceSizeInBytes : Nat
  workspaceData : Nat
  workspace : Nat → Nat

/-- One `Reshape` invocation: `n = bottom.size()`, the cuDNN query results
(per-input sizes `qf`, `qbf`, `qbd` and algorithm choices `qaf`, `qabf`,
`qabd` as returned by the lines 149-178 queries), and the `cudaMalloc`
oracle. -/
structure ReshapeCall where
  n : Nat
  qf : Nat → Nat
  qbf : Nat → Nat
  qbd : Nat → Nat
  qaf : Nat → Nat
  qabf : Nat → Nat
  qabd : Nat → Nat
  alloc : Nat → Option Nat

/-- The query loop of lines 136-179: store the chosen algorithms and their
workspace sizes for every bound input `i < n`. -/
def writeQueries (c : ReshapeCall) (st : PlanState) : PlanState :=
  { st with
    fwd_algo := fun i => if i < c.n then c.qaf i else st.fwd_algo i
    workspace_fwd_sizes := fun i =>
      if i < c.n then c.qf i else st.workspace_fwd_sizes i
    bwd_filter_algo := fun i => if i < c.n then c.qabf i else st.bwd_filter_algo i
    workspace_bwd_filter_sizes := fun i =>
      if i < c.n then c.qbf i else st.workspace_bwd_filter_sizes i
    bwd_data_algo := fun i => if i < c.n then c.qabd i else st.bwd_data_algo i
    workspace_bwd_data_sizes := fun i =>
      if i < c.n then c.qbd i else st.workspace_bwd_data_sizes i }

/-- The running-maximum reduction `for (i...) m = std::max(m, a[i])`
starting from `0` (lines 182-193). -/
def maxOver (n : Nat) (f : Nat → Nat) : Nat :=
  (List.range n).foldl (fun a i => max a (f i)) 0

/-- `CuDNNDepthwiseLayer::Reshape`, workspace-planning part (lines
136-234): write the query results, reduce the three per-kind maxima,
take `max_workspace` as their maximum and
`total_max_workspace = max_workspace * CUDNN_STREAMS_DEPTHWISE`; when that
strictly exceeds the current `workspaceSizeInBytes`, free and reallocate.
On `cudaMalloc` failure, zero all per-input sizes, force the zero-workspace
default algorithms, null the workspace pointers and the data pointer and
reset the size to `0`; the pointer-alias loop of lines 231-233 then runs
unconditionally, so each `workspace[g]` ends as
`workspaceData + g * max_workspace`. -/
def reshapePlan (c : ReshapeCall) (st : PlanState) : PlanState :=
  let st1 := writeQueries c st
  let total_workspace_fwd := maxOver c.n st1.workspace_fwd_sizes
  let total_workspace_bwd_data := maxOver c.n st1.workspace_bwd_data_sizes
  let total_workspace_bwd_filter := maxOver c.n st1.workspace_bwd_filter_sizes
  let max_workspace :=
    max (max total_workspace_fwd total_workspace_bwd_data)
      total_workspace_bwd_filter
  let total_max_workspace := max_workspace * CUDNN_STREAMS_DEPTHWISE
  if total_max_workspace > st1.workspaceSizeInBytes then
    let st2 := { st1 with workspaceSizeInBytes := total_max_workspace }
    match c.alloc total_max_workspace with
    | some p =>
      let st3 := { st2 with workspaceData := p }
      { st3 with
        workspace := fun g => if g < CUDNN_STREAMS_DEPTHWISE then
          st3.workspaceData + g * max_workspace else st3.workspace g }
    | none =>
      let st3 := { st2 with
        workspace_fwd_sizes := fun i =>
          if i < c.n then 0 else st2.workspace_fwd_sizes i
        workspace_bwd_filter_sizes := fun i =>
          if i < c.n then 0 else st2.workspace_bwd_filter_sizes i
        workspace_bwd_data_sizes := fun i =>
          if i < c.n then 0 else st2.workspace_bwd_data_sizes i
        fwd_algo := fun i => if i < c.n then
          CUDNN_CONVOLUTION_FWD_ALGO_IMPLICIT_GEMM else st2.fwd_algo i
        bwd_filter_algo := fun i => if i < c.n then
          CUDNN_CONVOLUTION_BWD_FILTER_ALGO_0 else st2.bwd_filter_algo i
        bwd_data_algo := fun i => if i < c.n then
          CUDNN_CONVOLUTION_BWD_DATA_ALGO_0 else st2.bwd_data_algo i
        workspace := fun g =>
          if g < CUDNN_STREAMS_DEPTHWISE then 0 else st2.workspace g
        workspaceData := 0
        workspaceSizeInBytes := 0 }
      { st3 with
        workspace := fun g => if g < CUDNN_STREAMS_DEPTHWISE then
          st3.workspaceData + g * max_workspace else st3.workspace g }
  else st1

/-- The per-stream maximum as the code computes it: the maximum of the
three per-kind reductions. -/
def perStreamMax (c : ReshapeCall) : Nat :=
  max (max (maxOver c.n c.qf) (maxOver c.n c.qbd)) (maxOver c.n c.qbf)

/-- `total_max_workspace`, the pool size `Reshape` requires. -/
def requiredPoolSize (c : ReshapeCall) : Nat :=
  perStreamMax c * CUDNN_STREAMS_DEPTHWISE

/-- Post-success state of the reallocation branch (lines 202-209 and
230-233): size set to the requirement, base pointer to the allocation,
stream pointers sliced at offsets `g * max_workspace`. -/
def allocOkState (c : ReshapeCall) (st : PlanState) (p : Nat) : PlanState :=
  { writeQueries c st with
    workspaceSizeInBytes := requiredPoolSize c
    workspaceData := p
    workspace := fun g => if g < CUDNN_STREAMS_DEPTHWISE then
      p + g * perStreamMax c else (writeQueries c st).workspace g }

/-- Post-failure state of the reallocation branch (lines 210-233): sizes
zeroed, algorithms defaulted, size and base pointer reset to 0, and the
stream pointers finally overwritten by the unconditional alias loop with
`0 + g * max_workspace`. -/
def degradeState (c : ReshapeCall) (st : PlanState) : PlanState :=
  { writeQueries c st with
    workspace_fwd_sizes := fun i =>
      if i < c.n then 0 else (writeQueries c st).workspace_fwd_sizes i
    workspace_bwd_filter_sizes := fun i =>
      if i < c.n then 0 else (writeQueries c st).workspace_bwd_filter_sizes i
    workspace_bwd_data_sizes := fun i =>
      if i < c.n then 0 else (writeQueries c st).workspace_bwd_data_sizes i
    fwd_algo := fun i => if i < c.n then
      CUDNN_CONVOLUTION_FWD_ALGO_IMPLICIT_GEMM else (writeQueries c st).fwd_algo i
    bwd_filter_algo := fun i => if i < c.n then
      CUDNN_CONVOLUTION_BWD_FILTER_ALGO_0 else (writeQueries c st).bwd_filter_algo i
    bwd_data_algo := fun i => if i < c.n then
      CUDNN_CONVOLUTION_BWD_DATA_ALGO_0 else (writeQueries c st).bwd_data_algo i
    workspaceSizeInBytes := 0
    workspaceData := 0
    workspace := fun g => if g < CUDNN_STREAMS_DEPTHWISE then
      0 + g * perStreamMax c
      else if g < CUDNN_STREAMS_DEPTHWISE then 0
      else (writeQueries c st).workspace g }

/-! ### Configuration checks, serialization, teardown -/

/-- The fatal configuration errors of the setup/reshape checks. -/
inductive ConfigError where
  | badSpatialAxes
  | channelsNotDivisible
  deriving DecidableEq

/-- `CHECK_EQ(0, this->channels_ % group_)` in `LayerSetUp` (lines 27-28):
fatal when the channel count is not divisible by the group count;
modelled as `Except` so the fatal stop is visible. -/
def layerSetUpCheck (channels group : Nat) : Except ConfigError Unit :=
  if channels % group = 0 then Except.ok ()
  else Except.error ConfigError.channelsNotDivisible

/-- `CHECK_EQ(2, this->num_spatial_axes_)` in `Reshape` (lines 115-118):
fatal when the spatial-axis count is not 2. -/
def reshapeSpatialCheck (numSpatialAxes : Nat) : Except ConfigError Unit :=
  if numSpatialAxes = 2 then Except.ok ()
  else Except.error ConfigError.badSpatialAxes

/-- A serialized blob, modelled from the spec: the external persistence
collaborator (`Blob::ToProto`) writes the data buffer always and the diff
buffer exactly when `write_diff` is set. -/
def protoOfBlob (write_diff : Bool) (b : (Nat → α) × (Nat → α)) :
    (Nat → α) × Option (Nat → α) :=
  (b.1, if write_diff then some b.2 else none)

/-- `CuDNNDepthwiseLayer::ToProto` (lines 274-289): when blobs are bound,
first run `CuDNNToCaffe`, then emit `caffe_weight_` followed by
`blobs_[1..]`; returns the (converted) state and the emitted blob list.
`blobs_[0]` (the grouped weight) and `mask_` are never emitted. -/
def ToProto [Zero α] (cfg : DwCfg) (write_diff : Bool) (st : LayerState α) :
    LayerState α × List ((Nat → α) × Option (Nat → α)) :=
  if st.blobs.isEmpty then (st, [])
  else
    let st1 := CuDNNToCaffe cfg st
    (st1, protoOfBlob write_diff (st1.caffe_data, st1.caffe_diff) ::
      st1.blobs.tail.map (protoOfBlob write_diff))

/-- The resources the destructor releases, counted per release call so a
double release is visible, plus the `handles_setup_` guard and the
configuration facts the destructor reads (`bottom_descs_.size()`,
`bias_term_`). -/
structure TeardownState where
  handles_setup : Bool
  bias_term : Bool
  numBottomDescs : Nat
  tensorDescDestroys : Nat
  convDescDestroys : Nat
  biasDescDestroys : Nat
  filterDescDestroys : Nat
  streamDestroys : Nat
  handleDestroys : Nat
  workspaceDataFrees : Nat
  arrayDeletes : Nat
  deriving DecidableEq

/-- The destructor body `~CuDNNDepthwiseLayer` (lines 242-272) as an
operation: return immediately unless `handles_setup_`; otherwise destroy
two tensor descriptors and one convolution descriptor per bound input, the
bias descriptor when `bias_term_`, the filter descriptor, the three
streams and three handles, free `workspaceData`, and delete the nine
arrays.  The guard flag `handles_setup_` is not cleared by the body. -/
def teardown (st : TeardownState) : TeardownState :=
  if !st.handles_setup then st
  else
    { st with
      tensorDescDestroys := st.tensorDescDestroys + 2 * st.numBottomDescs
      convDescDestroys := st.convDescDestroys + st.numBottomDescs
      biasDescDestroys := st.biasDescDestroys +
        if st.bias_term then 1 else 0
      filterDescDestroys := st.filterDescDestroys + 1
      streamDestroys := st.streamDestroys + CUDNN_STREAMS_DEPTHWISE
      handleDestroys := st.handleDestroys + CUDNN_STREAMS_DEPTHWISE
      workspaceDataFrees := st.workspaceDataFrees + 1
      arrayDeletes := st.arrayDeletes + 9 }

/-! ### Concrete instances used by witnesses and counterexamples -/

/-- Initial planner state as `LayerSetUp` leaves it (lines 49-70): sizes
and algorithms 0, pool size 0, `workspaceData` and stream pointers null. -/
def stP0 : PlanState :=
  ⟨fun _ => 0, fun _ => 0, fun _ => 0, fun _ => 0, fun _ => 0, fun _ => 0,
    0, 0, fun _ => 0⟩

/-- A planner state whose pool already holds 24 bytes at address 1000. -/
def stP24 : PlanState :=
  ⟨fun _ => 0, fun _ => 0, fun _ => 0, fun _ => 0, fun _ => 0, fun _ => 0,
    24, 1000, fun g => 1000 + g * 8⟩

/-- A reshape call for one bound input needing 8 bytes of forward scratch;
allocation succeeds at address 1000. -/
def callBig : ReshapeCall :=
  ⟨1, fun _ => 8, fun _ => 0, fun _ => 0, fun _ => 2, fun _ => 1, fun _ => 1,
    fun _ => some 1000⟩

/-- A later reshape call for the same input needing only 4 bytes of
forward scratch; allocation would succeed at address 2000. -/
def callSmall : ReshapeCall :=
  ⟨1, fun _ => 4, fun _ => 0, fun _ => 0, fun _ => 2, fun _ => 1, fun _ => 1,
    fun _ => some 2000⟩

/-- A reshape call whose allocation fails, with nonzero queried sizes and
algorithm choices so that the degrade path's resets are visible. -/
def callFail : ReshapeCall :=
  ⟨1, fun _ => 4, fun _ => 0, fun _ => 0, fun _ => 5, fun _ => 6, fun _ => 7,
    fun _ => none⟩

/-- A scribbled planner state before the failing reshape. -/
def stPDirty : PlanState :=
  ⟨fun _ => 11, fun _ => 12, fun _ => 13, fun _ => 3, fun _ => 3, fun _ => 3,
    0, 99, fun _ => 99⟩

/-- A teardown state right after a completed setup with two bound inputs
and a bias term: no resource released yet. -/
def tdSetup : TeardownState :=
  ⟨true, true, 2, 0, 0, 0, 0, 0, 0, 0, 0⟩

/-- A teardown state of an operator whose setup never completed. -/
def tdNoSetup : TeardownState :=
  ⟨false, true, 2, 0, 0, 0, 0, 0, 0, 0, 0⟩

/-! ### Generic lemmas about the write loops -/

theorem innerLoop_succ (K i : Nat) (f : Nat → Nat → Nat) (g : Nat → Nat → α)
    (b : Nat → α) :
    innerLoop (K + 1) i f g b =
      Function.update (innerLoop K i f g b) (f i K) (g i K) := by
  simp [innerLoop, List.range_succ]

theorem copyLoop_succ (O K : Nat) (f : Nat → Nat → Nat) (g : Nat → Nat → α)
    (b : Nat → α) :
    copyLoop (O + 1) K f g b = innerLoop K O f g (copyLoop O K f g b) := by
  simp [copyLoop, List.range_succ]

theorem innerLoop_not_written (K i : Nat) (f : Nat → Nat → Nat)
    (g : Nat → Nat → α) (b : Nat → α) (n : Nat)
    (h : ∀ k, k < K → f i k ≠ n) :
    innerLoop K i f g b n = b n := by
  induction K with
  | zero => simp [innerLoop]
  | succ K ih =>
    rw [innerLoop_succ,
      Function.update_noteq (Ne.symm (h K (Nat.lt_succ_self K)))]
    exact ih fun k hk => h k (Nat.lt_succ_of_lt hk)

theorem innerLoop_written (K i : Nat) (f : Nat → Nat → Nat)
    (g : Nat → Nat → α) (b : Nat → α) (k0 : Nat) (hk0 : k0 < K)
    (huniq : ∀ k, k < K → f i k = f i k0 → k = k0) :
    innerLoop K i f g b (f i k0) = g i k0 := by
  induction K with
  | zero => exact absurd hk0 (Nat.not_lt_zero k0)
  | succ K ih =>
    rw [innerLoop_succ]
    rcases Nat.lt_succ_iff_lt_or_eq.mp hk0 with hlt | rfl
    · have hne : f i k0 ≠ f i K := fun h => by
        have := huniq K (Nat.lt_succ_self K) h.symm
        exact Nat.lt_irrefl K (this ▸ hlt)
      rw [Function.update_noteq hne]
      exact ih hlt fun k hk => huniq k (Nat.lt_succ_of_lt hk)
    · exact Function.update_same _ _ _

theorem copyLoop_not_written (O K : Nat) (f : Nat → Nat → Nat)
    (g : Nat → Nat → α) (b : Nat → α) (n : Nat)
    (h : ∀ i k, i < O → k < K → f i k ≠ n) :
    copyLoop O K f g b n = b n := by
  induction O with
  | zero => simp [copyLoop]
  | succ O ih =>
    rw [copyLoop_succ,
      innerLoop_not_written K O f g _ n
        (fun k hk => h O k (Nat.lt_succ_self O) hk)]
    exact ih fun i k hi hk => h i k (Nat.lt_succ_of_lt hi) hk

theorem copyLoop_written (O K : Nat) (f : Nat → Nat → Nat)
    (g : Nat → Nat → α) (b : Nat → α) (i0 k0 : Nat) (hi0 : i0 < O)
    (hk0 : k0 < K)
    (huniq : ∀ i k, i < O → k < K → f i k = f i0 k0 → i = i0 ∧ k = k0) :
    copyLoop O K f g b (f i0 k0) = g i0 k0 := by
  induction O with
  | zero => exact absurd hi0 (Nat.not_lt_zero i0)
  | succ O ih =>
    rw [copyLoop_succ]
    rcases Nat.lt_succ_iff_lt_or_eq.mp hi0 with hlt | rfl
    · rw [innerLoop_not_written K O f g _ _ (fun k hk h => by
        have := huniq O k (Nat.lt_succ_self O) hk h
        exact absurd this.1 (Nat.ne_of_gt hlt))]
      exact ih hlt fun i k hi hk h =>
        huniq i k (Nat.lt_succ_of_lt hi) hk h
    · exact innerLoop_written K i0 f g _ k0 hk0 fun k hk h =>
        (huniq i0 k (Nat.lt_succ_self i0) hk h).2

/-! ### Arithmetic facts about the index maps -/

theorem mul_add_cancel_of_lt {c a a' r r' : Nat} (hr : r < c) (hr' : r' < c)
    (h : a * c + r = a' * c + r') : a = a' ∧ r = r' := by
  have hc : 0 < c := Nat.lt_of_le_of_lt (Nat.zero_le r) hr
  have hmod : r = r' := by
    have hmm : (r + a * c) % c = (r' + a' * c) % c := by
      rw [Nat.add_comm r (a * c), Nat.add_comm r' (a' * c), h]
    rw [Nat.add_mul_mod_self_right, Nat.add_mul_mod_self_right,
      Nat.mod_eq_of_lt hr, Nat.mod_eq_of_lt hr'] at hmm
    exact hmm
  refine ⟨?_, hmod⟩
  subst hmod
  have := Nat.add_right_cancel h
  exact Nat.eq_of_mul_eq_mul_right hc this

theorem jslot_lt (cfg : DwCfg) (hc : 0 < cfg.channels_per_group) (i : Nat) :
    jslot cfg i < cfg.channels_per_group :=
  Nat.mod_lt _ hc

/-- Injectivity of the grouped-layout index map on the loop domain: two
distinct `(i, k)` pairs write distinct `idx_cudnn` entries. -/
theorem idx_cudnn_inj (cfg : DwCfg) (hc : 0 < cfg.channels_per_group)
    {i i' k k' : Nat} (hk : k < cfg.kernel_dim) (hk' : k' < cfg.kernel_dim)
    (h : idx_cudnn cfg i k = idx_cudnn cfg i' k') : i = i' ∧ k = k' := by
  unfold idx_cudnn at h
  obtain ⟨hbase, hkk⟩ := mul_add_cancel_of_lt hk hk' h
  obtain ⟨hii, _⟩ :=
    mul_add_cancel_of_lt (jslot_lt cfg hc i) (jslot_lt cfg hc i') hbase
  exact ⟨hii, hkk⟩

/-- Injectivity of the compact-layout index map on the loop domain. -/
theorem idx_caffe_inj (cfg : DwCfg) {i i' k k' : Nat}
    (hk : k < cfg.kernel_dim) (hk' : k' < cfg.kernel_dim)
    (h : idx_caffe cfg i k = idx_caffe cfg i' k') : i = i' ∧ k = k' :=
  mul_add_cancel_of_lt hk hk' h

/-- Every compact-buffer index `n < num_output * kernel_dim` is
`idx_caffe cfg i k` for `i = n / kernel_dim`, `k = n % kernel_dim`. -/
theorem idx_caffe_surj (cfg : DwCfg) (hk : 0 < cfg.kernel_dim) {n : Nat}
    (hn : n < cfg.num_output * cfg.kernel_dim) :
    n / cfg.kernel_dim < cfg.num_output ∧
      n % cfg.kernel_dim < cfg.kernel_dim ∧
      idx_caffe cfg (n / cfg.kernel_dim) (n % cfg.kernel_dim) = n := by
  refine ⟨?_, Nat.mod_lt _ hk, ?_⟩
  · exact (Nat.div_lt_iff_lt_mul hk).mpr hn
  · unfold idx_caffe
    rw [Nat.mul_comm]
    exact Nat.div_add_mod n cfg.kernel_dim

/-- The grouped index of every in-domain `(i, k)` lies inside the
zero-filled region of size `groupedSize cfg`. -/
theorem idx_cudnn_lt (cfg : DwCfg) (hc : 0 < cfg.channels_per_group)
    {i k : Nat} (hi : i < cfg.num_output) (hk : k < cfg.kernel_dim) :
    idx_cudnn cfg i k < groupedSize cfg := by
  have hbase : i * cfg.channels_per_group + jslot cfg i <
      cfg.num_output * cfg.channels_per_group := by
    calc i * cfg.channels_per_group + jslot cfg i
        < i * cfg.channels_per_group + cfg.channels_per_group :=
          Nat.add_lt_add_left (jslot_lt cfg hc i) _
      _ = (i + 1) * cfg.channels_per_group := by ring
      _ ≤ cfg.num_output * cfg.channels_per_group :=
          Nat.mul_le_mul_right _ hi
  calc idx_cudnn cfg i k
      < (i * cfg.channels_per_group + jslot cfg i) * cfg.kernel_dim
          + cfg.kernel_dim := Nat.add_lt_add_left hk _
    _ = (i * cfg.channels_per_group + jslot cfg i + 1) * cfg.kernel_dim := by
        ring
    _ ≤ cfg.num_output * cfg.channels_per_group * cfg.kernel_dim :=
        Nat.mul_le_mul_right _ hbase
    _ = groupedSize cfg := rfl

/-- Bound on any grouped slot index `(i*channelsPerGroup + j')*kernelDim + k`
with in-range `i`, `j'`, `k`. -/
theorem slotIdx_lt (cfg : DwCfg) {i j' k : Nat} (hi : i < cfg.num_output)
    (hj' : j' < cfg.channels_per_group) (hk : k < cfg.kernel_dim) :
    (i * cfg.channels_per_group + j') * cfg.kernel_dim + k <
      groupedSize cfg := by
  have hbase : i * cfg.channels_per_group + j' <
      cfg.num_output * cfg.channels_per_group := by
    calc i * cfg.channels_per_group + j'
        < i * cfg.channels_per_group + cfg.channels_per_group :=
          Nat.add_lt_add_left hj' _
      _ = (i + 1) * cfg.channels_per_group := by ring
      _ ≤ cfg.num_output * cfg.channels_per_group :=
          Nat.mul_le_mul_right _ hi
  calc (i * cfg.channels_per_group + j') * cfg.kernel_dim + k
      < (i * cfg.channels_per_group + j') * cfg.kernel_dim + cfg.kernel_dim :=
        Nat.add_lt_add_left hk _
    _ = (i * cfg.channels_per_group + j' + 1) * cfg.kernel_dim := by ring
    _ ≤ cfg.num_output * cfg.channels_per_group * cfg.kernel_dim :=
        Nat.mul_le_mul_right _ hbase
    _ = groupedSize cfg := rfl

/-! ### Helper lemmas about the conversion passes -/

theorem caffeToCuDNN_data_at [Zero α] [One α] (cfg : DwCfg)
    (hc : 0 < cfg.channels_per_group) (st : LayerState α) (hb : st.blobs ≠ [])
    {i k : Nat} (hi : i < cfg.num_output) (hk : k < cfg.kernel_dim) :
    grpData (CaffeToCuDNN cfg st) (idx_cudnn cfg i k) =
      st.caffe_data (idx_caffe cfg i k) := by
  rcases st with ⟨blobs, cad, caf, msk⟩
  rcases blobs with _ | ⟨⟨cd, cf⟩, rest⟩
  · exact absurd rfl hb
  · simp only [CaffeToCuDNN, grpData, List.headD_cons]
    exact copyLoop_written _ _ _ _ _ i k hi hk fun i' k' hi' hk' h =>
      idx_cudnn_inj cfg hc hk' hk h

theorem caffeToCuDNN_diff_at [Zero α] [One α] (cfg : DwCfg)
    (hc : 0 < cfg.channels_per_group) (st : LayerState α) (hb : st.blobs ≠ [])
    {i k : Nat} (hi : i < cfg.num_output) (hk : k < cfg.kernel_dim) :
    grpDiff (CaffeToCuDNN cfg st) (idx_cudnn cfg i k) =
      st.caffe_diff (idx_caffe cfg i k) := by
  rcases st with ⟨blobs, cad, caf, msk⟩
  rcases blobs with _ | ⟨⟨cd, cf⟩, rest⟩
  · exact absurd rfl hb
  · simp only [CaffeToCuDNN, grpDiff, List.headD_cons]
    exact copyLoop_written _ _ _ _ _ i k hi hk fun i' k' hi' hk' h =>
      idx_cudnn_inj cfg hc hk' hk h

theorem caffeToCuDNN_mask_at [Zero α] [One α] (cfg : DwCfg)
    (hc : 0 < cfg.channels_per_group) (st : LayerState α) (hb : st.blobs ≠ [])
    {i k : Nat} (hi : i < cfg.num_output) (hk : k < cfg.kernel_dim) :
    (CaffeToCuDNN cfg st).mask (idx_cudnn cfg i k) = 1 := by
  rcases st with ⟨blobs, cad, caf, msk⟩
  rcases blobs with _ | ⟨⟨cd, cf⟩, rest⟩
  · exact absurd rfl hb
  · simp only [CaffeToCuDNN]
    exact copyLoop_written _ _ _ _ _ i k hi hk fun i' k' hi' hk' h =>
      idx_cudnn_inj cfg hc hk' hk h

/-- `CaffeToCuDNN` keeps the weight blob bound when it was bound. -/
theorem caffeToCuDNN_blobs_ne_nil [Zero α] [One α] (cfg : DwCfg)
    (st : LayerState α) (hb : st.blobs ≠ []) :
    (CaffeToCuDNN cfg st).blobs ≠ [] := by
  rcases st with ⟨blobs, cad, caf, msk⟩
  rcases blobs with _ | ⟨⟨cd, cf⟩, rest⟩
  · exact absurd rfl hb
  · simp [CaffeToCuDNN]

theorem caffeToCuDNN_caffe_data (cfg : DwCfg) [Zero α] [One α]
    (st : LayerState α) :
    (CaffeToCuDNN cfg st).caffe_data = st.caffe_data := by
  rcases st with ⟨blobs, cad, caf, msk⟩
  rcases blobs with _ | ⟨⟨cd, cf⟩, rest⟩ <;> simp [CaffeToCuDNN]

theorem caffeToCuDNN_caffe_diff (cfg : DwCfg) [Zero α] [One α]
    (st : LayerState α) :
    (CaffeToCuDNN cfg st).caffe_diff = st.caffe_diff := by
  rcases st with ⟨blobs, cad, caf, msk⟩
  rcases blobs with _ | ⟨⟨cd, cf⟩, rest⟩ <;> simp [CaffeToCuDNN]

theorem cuDNNToCaffe_data_at [Zero α] (cfg : DwCfg) (st : LayerState α)
    (hb : st.blobs ≠ []) {i k : Nat} (hi : i < cfg.num_output)
    (hk : k < cfg.kernel_dim) :
    (CuDNNToCaffe cfg st).caffe_data (idx_caffe cfg i k) =
      grpData st (idx_cudnn cfg i k) := by
  rcases st with ⟨blobs, cad, caf, msk⟩
  rcases blobs with _ | ⟨⟨cd, cf⟩, rest⟩
  · exact absurd rfl hb
  · simp only [CuDNNToCaffe, grpData, List.headD_cons]
    exact copyLoop_written _ _ _ _ _ i k hi hk fun i' k' hi' hk' h =>
      idx_caffe_inj cfg hk' hk h

theorem cuDNNToCaffe_diff_at [Zero α] (cfg : DwCfg) (st : LayerState α)
    (hb : st.blobs ≠ []) {i k : Nat} (hi : i < cfg.num_output)
    (hk : k < cfg.kernel_dim) :
    (CuDNNToCaffe cfg st).caffe_diff (idx_caffe cfg i k) =
      grpDiff st (idx_cudnn cfg i k) := by
  rcases st with ⟨blobs, cad, caf, msk⟩
  rcases blobs with _ | ⟨⟨cd, cf⟩, rest⟩
  · exact absurd rfl hb
  · simp only [CuDNNToCaffe, grpDiff, List.headD_cons]
    exact copyLoop_written _ _ _ _ _ i k hi hk fun i' k' hi' hk' h =>
      idx_caffe_inj cfg hk' hk h

/-! ### Claims about the layout translators -/

/-- Claim C10: for every configuration with `channelsPerGroup ≥ 1`,
`multiplier ≥ 1` and `kernelSize ≥ 1`, the map from `(i, k)` with
`i < outputChannels` and `k < kernelSize` to the backend index
`(i*channelsPerGroup + (i / multiplier mod channelsPerGroup))*kernelSize + k`
is injective, so no two compact entries collide in the grouped layout. -/
theorem C10_backend_index_injective (cfg : DwCfg)
    (hc : 0 < cfg.channels_per_group) (hm : 0 < cfg.multiplier)
    (hkd : 0 < cfg.kernel_dim) {i i' k k' : Nat}
    (hi : i < cfg.num_output) (hi' : i' < cfg.num_output)
    (hk : k < cfg.kernel_dim) (hk' : k' < cfg.kernel_dim)
    (h : idx_cudnn cfg i k = idx_cudnn cfg i' k') : i = i' ∧ k = k' :=
  idx_cudnn_inj cfg hc hk hk' h

/-- Witness for C10 at the spec's concrete scenario
(`multiplier=2`, `channels=4`, `outputChannels=8`, `channelsPerGroup=4`,
`kernelSize=3`). -/
theorem C10_backend_index_injective_witness :
    0 < (4 : Nat) ∧ 0 < (2 : Nat) ∧ 0 < (3 : Nat) ∧ (5 : Nat) < 8 ∧
      (1 : Nat) < 3 ∧ ((5 : Nat) = 5 ∧ (1 : Nat) = 1) :=
  ⟨by decide, by decide, by decide, by decide, by decide,
    C10_backend_index_injective ⟨8, 4, 2, 3⟩ (by decide) (by decide)
      (by decide) (by decide) (by decide) (by decide) (by decide) rfl⟩

/-- Claim C1: for every `CompactWeight` buffer pair and every valid
configuration (positive multiplier, positive channelsPerGroup, positive
kernel size), `CuDNNToCaffe` after `CaffeToCuDNN` restores every entry of
the compact data and diff buffers exactly. -/
theorem C1_roundtrip [Zero α] [One α] (cfg : DwCfg)
    (hm : 0 < cfg.multiplier) (hc : 0 < cfg.channels_per_group)
    (hkd : 0 < cfg.kernel_dim) (st : LayerState α) {n : Nat}
    (hn : n < cfg.num_output * cfg.kernel_dim) :
    (CuDNNToCaffe cfg (CaffeToCuDNN cfg st)).caffe_data n =
        st.caffe_data n ∧
      (CuDNNToCaffe cfg (CaffeToCuDNN cfg st)).caffe_diff n =
        st.caffe_diff n := by
  by_cases hb : st.blobs = []
  · rcases st with ⟨blobs, cad, caf, msk⟩
    subst hb
    exact ⟨rfl, rfl⟩
  · obtain ⟨hi, hk, hidx⟩ := idx_caffe_surj cfg hkd hn
    have hb' := caffeToCuDNN_blobs_ne_nil cfg st hb
    constructor
    · calc (CuDNNToCaffe cfg (CaffeToCuDNN cfg st)).caffe_data n
          = (CuDNNToCaffe cfg (CaffeToCuDNN cfg st)).caffe_data
              (idx_caffe cfg (n / cfg.kernel_dim) (n % cfg.kernel_dim)) := by
            rw [hidx]
        _ = grpData (CaffeToCuDNN cfg st)
              (idx_cudnn cfg (n / cfg.kernel_dim) (n % cfg.kernel_dim)) :=
            cuDNNToCaffe_data_at cfg _ hb' hi hk
        _ = st.caffe_data
              (idx_caffe cfg (n / cfg.kernel_dim) (n % cfg.kernel_dim)) :=
            caffeToCuDNN_data_at cfg hc st hb hi hk
        _ = st.caffe_data n := by rw [hidx]
    · calc (CuDNNToCaffe cfg (CaffeToCuDNN cfg st)).caffe_diff n
          = (CuDNNToCaffe cfg (CaffeToCuDNN cfg st)).caffe_diff
              (idx_caffe cfg (n / cfg.kernel_dim) (n % cfg.kernel_dim)) := by
            rw [hidx]
        _ = grpDiff (CaffeToCuDNN cfg st)
              (idx_cudnn cfg (n / cfg.kernel_dim) (n % cfg.kernel_dim)) :=
            cuDNNToCaffe_diff_at cfg _ hb' hi hk
        _ = st.caffe_diff
              (idx_caffe cfg (n / cfg.kernel_dim) (n % cfg.kernel_dim)) :=
            caffeToCuDNN_diff_at cfg hc st hb hi hk
        _ = st.caffe_diff n := by rw [hidx]

/-- Witness for C1: the round trip restores compact entry 4 of `stEx`. -/
theorem C1_roundtrip_witness :
    0 < (2 : Nat) ∧ 0 < (4 : Nat) ∧ 0 < (3 : Nat) ∧ (4 : Nat) < 8 * 3 ∧
      ((CuDNNToCaffe cfgEx (CaffeToCuDNN cfgEx stEx)).caffe_data 4 =
          stEx.caffe_data 4 ∧
        (CuDNNToCaffe cfgEx (CaffeToCuDNN cfgEx stEx)).caffe_diff 4 =
          stEx.caffe_diff 4) :=
  ⟨by decide, by decide, by decide, by decide,
    C1_roundtrip cfgEx (by decide) (by decide) (by decide) stEx (by decide)⟩

/-- Entries of the grouped buffers and the mask that no `(i, k)` pair of the
conversion loop writes keep their zero-filled value after `CaffeToCuDNN`. -/
theorem caffeToCuDNN_untouched [Zero α] [One α] (cfg : DwCfg)
    (st : LayerState α) (hb : st.blobs ≠ []) {n : Nat}
    (hn : n < groupedSize cfg)
    (hnw : ∀ i k, i < cfg.num_output → k < cfg.kernel_dim →
      idx_cudnn cfg i k ≠ n) :
    grpData (CaffeToCuDNN cfg st) n = 0 ∧
      grpDiff (CaffeToCuDNN cfg st) n = 0 ∧
      (CaffeToCuDNN cfg st).mask n = 0 := by
  rcases st with ⟨blobs, cad, caf, msk⟩
  rcases blobs with _ | ⟨⟨cd, cf⟩, rest⟩
  · exact absurd rfl hb
  · simp only [CaffeToCuDNN, grpData, grpDiff, List.headD_cons]
    refine ⟨?_, ?_, ?_⟩ <;>
      rw [copyLoop_not_written _ _ _ _ _ n hnw] <;> simp [zeroFill, hn]

/-- Claim C2: after `CaffeToCuDNN` with bound parameters, the mask is `1`
at the backend index of every `(i, k)`, is `0` at every other channel slot
of every output channel (so exactly one slot per output channel carries the
mask), and every grouped data/diff entry that is not a backend index of
some `(i, k)` is exactly `0`. -/
theorem C2_mask_and_zero_fill [Zero α] [One α] (cfg : DwCfg)
    (hc : 0 < cfg.channels_per_group) (hm : 0 < cfg.multiplier)
    (st : LayerState α) (hb : st.blobs ≠ []) :
    (∀ i k, i < cfg.num_output → k < cfg.kernel_dim →
      (CaffeToCuDNN cfg st).mask (idx_cudnn cfg i k) = 1) ∧
    (∀ i k j', i < cfg.num_output → k < cfg.kernel_dim →
      j' < cfg.channels_per_group → j' ≠ jslot cfg i →
      (CaffeToCuDNN cfg st).mask
        ((i * cfg.channels_per_group + j') * cfg.kernel_dim + k) = 0) ∧
    (∀ n, n < groupedSize cfg →
      (∀ i k, i < cfg.num_output → k < cfg.kernel_dim →
        idx_cudnn cfg i k ≠ n) →
      grpData (CaffeToCuDNN cfg st) n = 0 ∧
        grpDiff (CaffeToCuDNN cfg st) n = 0) := by
  refine ⟨fun i k hi hk => caffeToCuDNN_mask_at cfg hc st hb hi hk, ?_, ?_⟩
  · intro i k j' hi hk hj' hne
    have hnw : ∀ i'' k'', i'' < cfg.num_output → k'' < cfg.kernel_dim →
        idx_cudnn cfg i'' k'' ≠
          (i * cfg.channels_per_group + j') * cfg.kernel_dim + k := by
      intro i'' k'' hi'' hk'' h
      unfold idx_cudnn at h
      obtain ⟨hbase, -⟩ := mul_add_cancel_of_lt hk'' hk h
      obtain ⟨hii, hjj⟩ :=
        mul_add_cancel_of_lt (jslot_lt cfg hc i'') hj' hbase
      exact hne (hii ▸ hjj.symm)
    exact (caffeToCuDNN_untouched cfg st hb
      (slotIdx_lt cfg hi hj' hk) hnw).2.2
  · intro n hn hnw
    obtain ⟨h1, h2, -⟩ := caffeToCuDNN_untouched cfg st hb hn hnw
    exact ⟨h1, h2⟩

/-- Witness for C2: in the spec's `multiplier=2` scenario the mask of the
converted `stEx` is `1` at the backend index of `(i, k) = (5, 1)` (channel
slot `j = 2`) and `0` at slot `j' = 0` of output channel `5`. -/
theorem C2_mask_and_zero_fill_witness :
    0 < (4 : Nat) ∧ 0 < (2 : Nat) ∧ stEx.blobs ≠ [] ∧
      (CaffeToCuDNN cfgEx stEx).mask (idx_cudnn cfgEx 5 1) = 1 ∧
      (CaffeToCuDNN cfgEx stEx).mask
        ((5 * cfgEx.channels_per_group + 0) * cfgEx.kernel_dim + 1) = 0 :=
  ⟨by decide, by decide, by simp [stEx],
    (C2_mask_and_zero_fill cfgEx (by decide) (by decide) stEx
      (by simp [stEx])).1 5 1 (by decide) (by decide),
    (C2_mask_and_zero_fill cfgEx (by decide) (by decide) stEx
      (by simp [stEx])).2.1 5 1 0 (by decide) (by decide) (by decide)
      (by decide)⟩

/-- Claim C8: `CuDNNToCaffe` writes only the compact data and diff buffers;
the blobs (grouped weight included) and the validity mask are unchanged,
and even the compact entries outside the copied index range are kept. -/
theorem C8_toCompact_frame [Zero α] (cfg : DwCfg) (st : LayerState α) :
    (CuDNNToCaffe cfg st).blobs = st.blobs ∧
    (CuDNNToCaffe cfg st).mask = st.mask ∧
    (∀ n, (∀ i k, i < cfg.num_output → k < cfg.kernel_dim →
        idx_caffe cfg i k ≠ n) →
      (CuDNNToCaffe cfg st).caffe_data n = st.caffe_data n ∧
        (CuDNNToCaffe cfg st).caffe_diff n = st.caffe_diff n) := by
  rcases st with ⟨blobs, cad, caf, msk⟩
  rcases blobs with _ | ⟨⟨cd, cf⟩, rest⟩
  · exact ⟨rfl, rfl, fun n h => ⟨rfl, rfl⟩⟩
  · refine ⟨rfl, rfl, fun n h => ⟨?_, ?_⟩⟩
    · exact copyLoop_not_written _ _ _ _ _ n h
    · exact copyLoop_not_written _ _ _ _ _ n h

/-- Witness for C8: converting `stEx` back leaves its blobs, mask, and the
out-of-range compact entry at index 100 unchanged. -/
theorem C8_toCompact_frame_witness :
    (CuDNNToCaffe cfgEx stEx).blobs = stEx.blobs ∧
      (CuDNNToCaffe cfgEx stEx).mask = stEx.mask ∧
      ((CuDNNToCaffe cfgEx stEx).caffe_data 100 = stEx.caffe_data 100 ∧
        (CuDNNToCaffe cfgEx stEx).caffe_diff 100 = stEx.caffe_diff 100) :=
  ⟨(C8_toCompact_frame cfgEx stEx).1, (C8_toCompact_frame cfgEx stEx).2.1,
    (C8_toCompact_frame cfgEx stEx).2.2 100 (by
      intro i k hi hk
      simp only [idx_caffe, cfgEx] at *
      omega)⟩

theorem maxOver_succ (n : Nat) (f : Nat → Nat) :
    maxOver (n + 1) f = max (maxOver n f) (f n) := by
  simp [maxOver, List.range_succ]

theorem maxOver_congr {n : Nat} {f g : Nat → Nat}
    (h : ∀ i, i < n → f i = g i) : maxOver n f = maxOver n g := by
  induction n with
  | zero => simp [maxOver]
  | succ n ih =>
    rw [maxOver_succ, maxOver_succ, ih fun i hi => h i (Nat.lt_succ_of_lt hi),
      h n (Nat.lt_succ_self n)]

/-- A maximum of per-input maxima equals the maximum of the per-kind
maxima (the order in which the code reduces them). -/
theorem maxOver_max3 (n : Nat) (f d w : Nat → Nat) :
    maxOver n (fun i => max (max (f i) (d i)) (w i)) =
      max (max (maxOver n f) (maxOver n d)) (maxOver n w) := by
  induction n with
  | zero => simp [maxOver]
  | succ n ih =>
    rw [maxOver_succ, maxOver_succ, maxOver_succ, maxOver_succ, ih]
    omega

theorem wq_fwd_max (c : ReshapeCall) (st : PlanState) :
    maxOver c.n (writeQueries c st).workspace_fwd_sizes = maxOver c.n c.qf :=
  maxOver_congr fun i hi => by simp [writeQueries, hi]

theorem wq_bwd_data_max (c : ReshapeCall) (st : PlanState) :
    maxOver c.n (writeQueries c st).workspace_bwd_data_sizes =
      maxOver c.n c.qbd :=
  maxOver_congr fun i hi => by simp [writeQueries, hi]

theorem wq_bwd_filter_max (c : ReshapeCall) (st : PlanState) :
    maxOver c.n (writeQueries c st).workspace_bwd_filter_sizes =
      maxOver c.n c.qbf :=
  maxOver_congr fun i hi => by simp [writeQueries, hi]

/-- When the required pool size does not strictly exceed the current one,
`Reshape` only records the query results: the pool is untouched and the
allocator is never consulted. -/
theorem reshapePlan_no_realloc (c : ReshapeCall) (st : PlanState)
    (h : requiredPoolSize c ≤ st.workspaceSizeInBytes) :
    reshapePlan c st = writeQueries c st := by
  simp only [requiredPoolSize, perStreamMax] at h
  simp only [reshapePlan, wq_fwd_max, wq_bwd_data_max, wq_bwd_filter_max]
  rw [if_neg]
  exact Nat.not_lt.mpr h

/-- `reshapePlan` in terms of the required pool size and the two branch
states. -/
theorem reshapePlan_eq (c : ReshapeCall) (st : PlanState) :
    reshapePlan c st =
      if st.workspaceSizeInBytes < requiredPoolSize c then
        match c.alloc (requiredPoolSize c) with
        | some p => allocOkState c st p
        | none => degradeState c st
      else writeQueries c st := by
  simp only [reshapePlan, wq_fwd_max, wq_bwd_data_max, wq_bwd_filter_max]
  rfl

/-- When the required pool size does not strictly exceed the current one,
`Reshape` only records the query results: the pool is untouched and the
allocator is never consulted. -/
theorem reshapePlan_no_attempt (c : ReshapeCall) (st : PlanState)
    (h : requiredPoolSize c ≤ st.workspaceSizeInBytes) :
    reshapePlan c st = writeQueries c st := by
  rw [reshapePlan_eq, if_neg (Nat.not_lt.mpr h)]

/-- Successful reallocation: the state becomes `allocOkState`. -/
theorem reshapePlan_alloc_ok (c : ReshapeCall) (st : PlanState) (p : Nat)
    (h : st.workspaceSizeInBytes < requiredPoolSize c)
    (hp : c.alloc (requiredPoolSize c) = some p) :
    reshapePlan c st = allocOkState c st p := by
  rw [reshapePlan_eq, if_pos h, hp]

/-- Failed reallocation: the state becomes `degradeState`. -/
theorem reshapePlan_alloc_fail (c : ReshapeCall) (st : PlanState)
    (h : st.workspaceSizeInBytes < requiredPoolSize c)
    (hp : c.alloc (requiredPoolSize c) = none) :
    reshapePlan c st = degradeState c st := by
  rw [reshapePlan_eq, if_pos h, hp]

/-! ### Claims about the workspace planner -/

/-- Claim C4: the required scratch pool size equals `perStreamMax × 3`
where `perStreamMax` is the maximum over all bound inputs of the maximum
of that input's forward, backward-data and backward-filter scratch sizes;
on successful allocation the pool has exactly that size and is sliced
into 3 equal regions at offsets `g × perStreamMax` for `g = 0, 1, 2`. -/
theorem C4_pool_size_and_slicing (c : ReshapeCall) (st : PlanState) (p : Nat)
    (h : st.workspaceSizeInBytes < requiredPoolSize c)
    (hp : c.alloc (requiredPoolSize c) = some p) :
    requiredPoolSize c =
      maxOver c.n (fun i => max (max (c.qf i) (c.qbd i)) (c.qbf i)) *
        CUDNN_STREAMS_DEPTHWISE ∧
    (reshapePlan c st).workspaceSizeInBytes = requiredPoolSize c ∧
    ∀ g, g < CUDNN_STREAMS_DEPTHWISE →
      (reshapePlan c st).workspace g =
        p + g * maxOver c.n (fun i => max (max (c.qf i) (c.qbd i)) (c.qbf i)) := by
  have hps : maxOver c.n (fun i => max (max (c.qf i) (c.qbd i)) (c.qbf i)) =
      perStreamMax c := by
    rw [maxOver_max3]; rfl
  rw [reshapePlan_alloc_ok c st p h hp, hps]
  refine ⟨rfl, rfl, fun g hg => ?_⟩
  simp only [allocOkState]
  exact if_pos hg

/-- Witness for C4 on `callBig` from the empty pool: required size
`8 × 3 = 24`, base 1000, slice offsets 0, 8, 16. -/
theorem C4_pool_size_and_slicing_witness :
    stP0.workspaceSizeInBytes < requiredPoolSize callBig ∧
    callBig.alloc (requiredPoolSize callBig) = some 1000 ∧
    (requiredPoolSize callBig =
      maxOver callBig.n
        (fun i => max (max (callBig.qf i) (callBig.qbd i)) (callBig.qbf i)) *
        CUDNN_STREAMS_DEPTHWISE ∧
    (reshapePlan callBig stP0).workspaceSizeInBytes =
      requiredPoolSize callBig ∧
    ∀ g, g < CUDNN_STREAMS_DEPTHWISE →
      (reshapePlan callBig stP0).workspace g =
        1000 + g * maxOver callBig.n
          (fun i => max (max (callBig.qf i) (callBig.qbd i)) (callBig.qbf i))) :=
  ⟨by decide, by decide,
    C4_pool_size_and_slicing callBig stP0 1000 (by decide) (by decide)⟩

/-- Claim C5: across any sequence of successive reshape calls whose
allocations succeed, the pool size never decreases, even when a later
call requires strictly less scratch (the allocation-failure zeroing is
the only reset); and a reallocation is attempted only when the required
size strictly exceeds the current one: otherwise the pool size, base
pointer and stream pointers are untouched and the result does not depend
on the allocator at all. -/
theorem C5_grow_only :
    (∀ (calls : List ReshapeCall) (st : PlanState),
      (∀ c ∈ calls, ∀ s, (ReshapeCall.alloc c s).isSome) →
      st.workspaceSizeInBytes ≤
        (calls.foldl (fun s c => reshapePlan c s) st).workspaceSizeInBytes) ∧
    (∀ (c : ReshapeCall) (st : PlanState),
      requiredPoolSize c ≤ st.workspaceSizeInBytes →
      (reshapePlan c st).workspaceSizeInBytes = st.workspaceSizeInBytes ∧
      (reshapePlan c st).workspaceData = st.workspaceData ∧
      (reshapePlan c st).workspace = st.workspace ∧
      ∀ a2, reshapePlan { c with alloc := a2 } st = reshapePlan c st) := by
  have hstep : ∀ (c : ReshapeCall) (st : PlanState),
      (∀ s, (c.alloc s).isSome) →
      st.workspaceSizeInBytes ≤ (reshapePlan c st).workspaceSizeInBytes := by
    intro c st hs
    by_cases h : st.workspaceSizeInBytes < requiredPoolSize c
    · obtain ⟨p, hp⟩ := Option.isSome_iff_exists.mp (hs (requiredPoolSize c))
      rw [reshapePlan_alloc_ok c st p h hp]
      exact Nat.le_of_lt h
    · rw [reshapePlan_no_attempt c st (Nat.not_lt.mp h)]
      exact Nat.le_refl _
  constructor
  · intro calls
    induction calls with
    | nil => intro st h; exact Nat.le_refl _
    | cons c cs ih =>
      intro st h
      refine Nat.le_trans (hstep c st (h c (List.mem_cons_self c cs))) ?_
      exact ih _ fun c' hc' s => h c' (List.mem_cons_of_mem c hc') s
  · intro c st h
    have hr := reshapePlan_no_attempt c st h
    refine ⟨by rw [hr]; rfl, by rw [hr]; rfl, by rw [hr]; rfl, fun a2 => ?_⟩
    have h2 : requiredPoolSize { c with alloc := a2 } ≤
        st.workspaceSizeInBytes := h
    rw [reshapePlan_no_attempt _ st h2, hr]
    rfl

/-- Witness for C5: after `callBig` (pool grows to 24) a `callSmall`
needing only 12 leaves the pool at 24, and on a 24-byte pool `callSmall`
touches none of the pool fields. -/
theorem C5_grow_only_witness :
    stP0.workspaceSizeInBytes ≤
      (([callBig, callSmall]).foldl
        (fun s c => reshapePlan c s) stP0).workspaceSizeInBytes ∧
    (reshapePlan callSmall stP24).workspaceSizeInBytes =
      stP24.workspaceSizeInBytes :=
  ⟨C5_grow_only.1 [callBig, callSmall] stP0 (by
      intro c hc s
      rcases List.mem_cons.mp hc with rfl | hc2
      · simp [callBig]
      · rcases List.mem_cons.mp hc2 with rfl | h3
        · simp [callSmall]
        · cases h3),
    (C5_grow_only.2 callSmall stP24 (by decide)).1⟩

/-- Claim C3, evaluated at a failing input: reshaping `stPDirty` (pool
size 0) with `callFail` (required size 12, allocation fails) zeroes the
three scratch sizes, forces the zero-workspace default algorithms, nulls
`workspaceData`, resets the pool size to 0 and nulls stream 0's pointer —
but the unconditional pointer-alias loop of lines 230-233 then leaves
streams 1 and 2 with the non-null offsets `1 * max_workspace = 4` and
`2 * max_workspace = 8` computed from the null base, contradicting both
the claim that all three stream scratch-region pointers are null and the
code's own comments (lines 221 and 230). -/
theorem C3_degrade_eval :
    (reshapePlan callFail stPDirty).workspace_fwd_sizes 0 = 0 ∧
    (reshapePlan callFail stPDirty).workspace_bwd_filter_sizes 0 = 0 ∧
    (reshapePlan callFail stPDirty).workspace_bwd_data_sizes 0 = 0 ∧
    (reshapePlan callFail stPDirty).fwd_algo 0 =
      CUDNN_CONVOLUTION_FWD_ALGO_IMPLICIT_GEMM ∧
    (reshapePlan callFail stPDirty).bwd_filter_algo 0 =
      CUDNN_CONVOLUTION_BWD_FILTER_ALGO_0 ∧
    (reshapePlan callFail stPDirty).bwd_data_algo 0 =
      CUDNN_CONVOLUTION_BWD_DATA_ALGO_0 ∧
    (reshapePlan callFail stPDirty).workspaceSizeInBytes = 0 ∧
    (reshapePlan callFail stPDirty).workspaceData = 0 ∧
    (reshapePlan callFail stPDirty).workspace 0 = 0 ∧
    (reshapePlan callFail stPDirty).workspace 1 = 4 ∧
    (reshapePlan callFail stPDirty).workspace 2 = 8 := by decide

/-! ### Claims about checks, serialization, teardown -/

/-- Claim C6: setup/reshape passes the fatal configuration checks exactly
when the spatial-axis count is 2 and the channel count is divisible by the
group count; for every configuration satisfying both, neither check
fires. -/
theorem C6_config_checks (numSpatialAxes channels group : Nat) :
    (reshapeSpatialCheck numSpatialAxes = Except.ok () ∧
      layerSetUpCheck channels group = Except.ok ()) ↔
    (numSpatialAxes = 2 ∧ channels % group = 0) := by
  constructor
  · rintro ⟨h1, h2⟩
    constructor
    · by_contra hne
      simp [reshapeSpatialCheck, hne] at h1
    · by_contra hne
      simp [layerSetUpCheck, hne] at h2
  · rintro ⟨h1, h2⟩
    exact ⟨by simp [reshapeSpatialCheck, h1], by simp [layerSetUpCheck, h2]⟩

/-- Witness for C6: a 2-spatial-axes configuration with 6 channels in 3
groups passes both checks. -/
theorem C6_config_checks_witness :
    reshapeSpatialCheck 2 = Except.ok () ∧
      layerSetUpCheck 6 3 = Except.ok () :=
  (C6_config_checks 2 6 3).mpr (by decide)

theorem cuDNNToCaffe_blobs [Zero α] (cfg : DwCfg) (st : LayerState α) :
    (CuDNNToCaffe cfg st).blobs = st.blobs := by
  rcases st with ⟨blobs, cad, caf, msk⟩
  rcases blobs with _ | ⟨⟨cd, cf⟩, rest⟩ <;> rfl

theorem cuDNNToCaffe_mask [Zero α] (cfg : DwCfg) (st : LayerState α) :
    (CuDNNToCaffe cfg st).mask = st.mask := by
  rcases st with ⟨blobs, cad, caf, msk⟩
  rcases blobs with _ | ⟨⟨cd, cf⟩, rest⟩ <;> rfl

/-- Claim C7: with bound parameters, `ToProto` emits exactly the compact
weight — `caffe_weight_` refreshed by the `CuDNNToCaffe` conversion run
immediately before writing, its gradient included exactly when
`write_diff` — followed by the serializations of `blobs_[1..]`; neither
the grouped weight `blobs_[0]` nor the validity mask is ever emitted,
and the returned state is the converted one. -/
theorem C7_serialize_compact [Zero α] (cfg : DwCfg) (write_diff : Bool)
    (st : LayerState α) (b0 : (Nat → α) × (Nat → α))
    (rest : List ((Nat → α) × (Nat → α))) (hb : st.blobs = b0 :: rest) :
    (ToProto cfg write_diff st).1 = CuDNNToCaffe cfg st ∧
    (ToProto cfg write_diff st).2 =
      protoOfBlob write_diff ((CuDNNToCaffe cfg st).caffe_data,
          (CuDNNToCaffe cfg st).caffe_diff) ::
        rest.map (protoOfBlob write_diff) := by
  have hne : st.blobs.isEmpty = false := by simp [hb]
  constructor
  · simp [ToProto, hne]
  · simp [ToProto, hne, cuDNNToCaffe_blobs, hb]

/-- Witness for C7 on `stEx` (one bound weight blob, `write_diff` set). -/
theorem C7_serialize_compact_witness :
    (ToProto cfgEx true stEx).1 = CuDNNToCaffe cfgEx stEx ∧
    (ToProto cfgEx true stEx).2 =
      protoOfBlob true ((CuDNNToCaffe cfgEx stEx).caffe_data,
          (CuDNNToCaffe cfgEx stEx).caffe_diff) ::
        List.map (protoOfBlob true) [] :=
  C7_serialize_compact cfgEx true stEx _ _ rfl

/-- Counterexample to claim C9 as stated: after a completed setup
(`tdSetup`), running the teardown body twice does not leave the operator
in the same terminal state as running it once — the guard flag is never
cleared, so the second run releases every resource again (the three
streams end up destroyed twice). -/
theorem C9_counterexample :
    teardown (teardown tdSetup) ≠ teardown tdSetup ∧
      (teardown (teardown tdSetup)).streamDestroys = 6 ∧
      (teardown tdSetup).streamDestroys = 3 := by decide

/-- Claim C9 amended: teardown is a no-op — hence fault-free and
idempotent — when setup was never completed; after a completed setup a
single teardown releases each resource exactly once but leaves the setup
flag set, so a second teardown releases every resource a second time. -/
theorem C9_teardown_amended (st : TeardownState) :
    (st.handles_setup = false →
      teardown st = st ∧ teardown (teardown st) = teardown st) ∧
    (st.handles_setup = true →
      (teardown st).handles_setup = true ∧
      (teardown st).streamDestroys = st.streamDestroys + 3 ∧
      (teardown st).handleDestroys = st.handleDestroys + 3 ∧
      (teardown st).tensorDescDestroys =
        st.tensorDescDestroys + 2 * st.numBottomDescs ∧
      (teardown st).convDescDestroys =
        st.convDescDestroys + st.numBottomDescs ∧
      (teardown st).filterDescDestroys = st.filterDescDestroys + 1 ∧
      (teardown st).workspaceDataFrees = st.workspaceDataFrees + 1 ∧
      (teardown st).arrayDeletes = st.arrayDeletes + 9 ∧
      (teardown (teardown st)).streamDestroys = st.streamDestroys + 6) := by
  constructor
  · intro h
    have hid : teardown st = st := by simp [teardown, h]
    exact ⟨hid, by rw [hid, hid]⟩
  · intro h
    simp [teardown, h, CUDNN_STREAMS_DEPTHWISE]

/-- Witness for the amended C9: no-op and idempotent on `tdNoSetup`, and a
single release of the three streams on `tdSetup`. -/
theorem C9_teardown_amended_witness :
    (teardown tdNoSetup = tdNoSetup ∧
      teardown (teardown tdNoSetup) = teardown tdNoSetup) ∧
    (teardown tdSetup).streamDestroys = tdSetup.streamDestroys + 3 :=
  ⟨(C9_teardown_amended tdNoSetup).1 rfl,
    ((C9_teardown_amended tdSetup).2 rfl).2.1⟩
